import Mathlib

/-!
Verification of the phishing-URL feature-extraction and scoring pipeline
(`app.py`).  The Python code is shallowly embedded: pure string functions
become Lean functions on `String`/`List Char`; calls into the network
(`socket.gethostbyname`, `whois.whois`, `requests.get`) are parameterised by
an explicit outcome record `NetEnv`; Python exceptions are modelled with
`Except PyErr`.  The URL parser is a model of CPython 3.11
`urllib.parse.urlparse` (the version of the interpreter the app runs on).
-/

deriving instance DecidableEq for Except

/-- Exceptions that can escape the modelled Python library calls:
`valueError` is the `ValueError("Invalid IPv6 URL")` that
`urllib.parse.urlsplit` raises on a netloc with unbalanced brackets, and
`unicodeError` is the `UnicodeError` that `socket.gethostbyname` raises when
IDNA-encoding a host label longer than 63 characters (this exception is not
an `OSError`, hence not a `socket.error`). -/
inductive PyErr where
  | valueError
  | unicodeError
deriving DecidableEq

/-- Result record of `urllib.parse.urlparse`: the six named components. -/
structure ParseResult where
  scheme : String
  netloc : String
  path : String
  params : String
  query : String
  fragment : String
deriving DecidableEq

/-- The character `LEFT CURLY BRACKET`. -/
def lbrace : Char := Char.ofNat 123

/-- The character `RIGHT CURLY BRACKET`. -/
def rbrace : Char := Char.ofNat 125

/-- Python's substring test `needle in haystack` on character lists. -/
def containsSub (needle : List Char) : List Char → Bool
  | [] => List.isPrefixOf needle []
  | c :: rest => List.isPrefixOf needle (c :: rest) || containsSub needle rest

/-- Python's `str.split(ch, 1)`: the part before the first occurrence of
`ch` and the part after it (callers only invoke it when `ch` occurs). -/
def splitFirst (ch : Char) : List Char → List Char × List Char
  | [] => ([], [])
  | c :: rest =>
    if c == ch then ([], rest)
    else
      let r := splitFirst ch rest
      (c :: r.1, r.2)

/-- Constant `scheme_chars` of `urllib.parse`: characters allowed in a URL scheme. -/
def scheme_chars : List Char :=
  "abcdefghijklmnopqrstuvwxyzABCDEFGHIJKLMNOPQRSTUVWXYZ0123456789+-.".data

/-- Fragment and query splitting at the end of CPython's `urlsplit`:
`if '#' in url: url, fragment = url.split('#', 1)` followed by
`if '?' in url: url, query = url.split('?', 1)`. -/
def splitFragmentQuery (u : List Char) : List Char × List Char × List Char :=
  let fq := if u.contains '#' then splitFirst '#' u else (u, [])
  let pq := if fq.1.contains '?' then splitFirst '?' fq.1 else (fq.1, [])
  (pq.1, pq.2, fq.2)

/-- Model of CPython 3.11 `urllib.parse.urlsplit` (with the default
`allow_fragments=True`): strip leading WHATWG C0-control/space characters,
remove `\t`, `\r`, `\n` everywhere, split off a scheme when the text before
the first `:` is a valid scheme beginning with an ASCII letter, split off
the netloc after a leading `//` up to the first of `/?#` (raising
`ValueError` when the netloc has a `[` without `]` or vice versa), then
split off fragment and query.  Two checks of the original that fire only on
exotic inputs are modelled as accepting: the `ipaddress` validation of a
netloc containing balanced `[...]`, and the NFKC `_checknetloc` scan, which
never raises on all-ASCII netlocs.  Returns
`(scheme, netloc, path, query, fragment)`. -/
def urlsplitE (url : String) : Except PyErr (String × String × String × String × String) :=
  let u0 := url.data.dropWhile (fun c => c.toNat ≤ 32)
  let u1 := u0.filter (fun c => !(c == Char.ofNat 9 || c == Char.ofNat 13 || c == Char.ofNat 10))
  let i? := List.findIdx? (fun c => c == ':') u1
  let schemeOk :=
    match i?, u1 with
    | some i, c :: _ =>
      (i != 0) && (c.toNat < 128) && c.isAlpha && (u1.take i).all (fun d => scheme_chars.contains d)
    | _, _ => false
  let scheme : List Char :=
    match i? with
    | some i => if schemeOk then (u1.take i).map Char.toLower else []
    | none => []
  let u2 :=
    match i? with
    | some i => if schemeOk then u1.drop (i + 1) else u1
    | none => u1
  if u2.take 2 == ['/', '/'] then
    let rest := u2.drop 2
    let d := rest.findIdx (fun c => c == '/' || c == '?' || c == '#')
    let netloc := rest.take d
    let u3 := rest.drop d
    if netloc.contains '[' != netloc.contains ']' then
      .error .valueError
    else
      let (p, q, f) := splitFragmentQuery u3
      .ok (⟨scheme⟩, ⟨netloc⟩, ⟨p⟩, ⟨q⟩, ⟨f⟩)
  else
    let (p, q, f) := splitFragmentQuery u2
    .ok (⟨scheme⟩, "", ⟨p⟩, ⟨q⟩, ⟨f⟩)

/-- Constant `uses_params` of CPython 3.11 `urllib.parse`. -/
def uses_params : List String :=
  ["", "ftp", "hdl", "prospero", "http", "imap", "https", "shttp", "rtsp",
   "rtsps", "rtspu", "sip", "sips", "mms", "sftp", "tel"]

/-- Python `str.rfind(ch)` on a character list (`none` when absent). -/
def rfindChar (ch : Char) (l : List Char) : Option Nat :=
  (List.findIdx? (fun c => c == ch) l.reverse).map (fun i => l.length - 1 - i)

/-- Python `str.find(ch, start)` on a character list (`none` when absent). -/
def findCharFrom (ch : Char) (start : Nat) (l : List Char) : Option Nat :=
  (List.findIdx? (fun c => c == ch) (l.drop start)).map (fun i => i + start)

/-- Model of `urllib.parse._splitparams`: split `;params` from the last
path segment. -/
def splitparams (l : List Char) : List Char × List Char :=
  if l.contains '/' then
    let j := match rfindChar '/' l with | some j => j | none => 0
    match findCharFrom ';' j l with
    | none => (l, [])
    | some i => (l.take i, l.drop (i + 1))
  else
    match List.findIdx? (fun c => c == ';') l with
    | none => (l, [])
    | some i => (l.take i, l.drop (i + 1))

/-- Model of CPython 3.11 `urllib.parse.urlparse`: `urlsplit` followed by
splitting `params` off the path when the scheme uses parameters. -/
def urlparseE (url : String) : Except PyErr ParseResult := do
  let (scheme, netloc, path, query, fragment) ← urlsplitE url
  let pp :=
    if uses_params.contains scheme && path.data.contains ';' then splitparams path.data
    else (path.data, [])
  .ok ⟨scheme, netloc, ⟨pp.1⟩, ⟨pp.2⟩, query, fragment⟩

/-- Word character for Python `re`'s `\b` on ASCII text. -/
def isWordChar (c : Char) : Bool := c.isAlphanum || c == '_'

/-- Remainders of `l` after consuming between 1 and `k` leading decimal
digits (one list entry per consumed count): the alternatives the quantifier
`[0-9]{1,3}` can take. -/
def digitRests : Nat → List Char → List (List Char)
  | 0, _ => []
  | _ + 1, [] => []
  | k + 1, c :: rest => if c.isDigit then rest :: digitRests k rest else []

/-- Remainders after matching `[0-9]{1,3}\.` at the front of `l`. -/
def ipGroupRests (l : List Char) : List (List Char) :=
  (digitRests 3 l).filterMap fun r =>
    match r with
    | c :: rest => if c == '.' then some rest else none
    | [] => none

/-- Tail of the pattern from `app.py`'s `has_ip_address` regex after the
three `[0-9]{1,3}\.` groups.  The source pattern reads
`[0-9]{1-3}` with a hyphen; CPython's `sre_parse` does not recognise
`\x7b1-3\x7d` as a repeat quantifier and therefore treats it as the five
literal characters `\x7b`, `1`, `-`, `3`, `\x7d`.  So the tail is one
digit, those five literals, then `\b` (the preceding `\x7d` is a non-word
character, so the boundary requires a following word character). -/
def ipTailMatch : List Char → Bool
  | c0 :: c1 :: c2 :: c3 :: c4 :: c5 :: rest =>
    c0.isDigit && c1 == lbrace && c2 == '1' && c3 == '-' && c4 == '3' && c5 == rbrace &&
      (match rest with | d :: _ => isWordChar d | [] => false)
  | _ => false

/-- Whether the `has_ip_address` pattern matches at the current position;
`prev` is the character just before the position (`none` at the start of
the string), used for the leading `\b`. -/
def ipMatchAt (prev : Option Char) (l : List Char) : Bool :=
  let prevW := match prev with | some c => isWordChar c | none => false
  let nextW := match l with | c :: _ => isWordChar c | [] => false
  (prevW != nextW) &&
    ((((ipGroupRests l).flatMap ipGroupRests).flatMap ipGroupRests).any ipTailMatch)

/-- Model of `re.search` for the fixed pattern of `has_ip_address`: try a
match at every position of the string. -/
def reSearchIp : Option Char → List Char → Bool
  | prev, [] => ipMatchAt prev []
  | prev, c :: rest => ipMatchAt prev (c :: rest) || reSearchIp (some c) rest

/-- Source function `has_ip_address` from `app.py`: truthiness of
`re.search(r'\b(?:[0-9]\x7b1,3\x7d\.)\x7b3\x7d[0-9]\x7b1-3\x7d\b', url)`. -/
def has_ip_address (url : String) : Nat :=
  if reSearchIp none url.data then 1 else 0

/-- Source function `has_at_symbol` from `app.py`: `1 if '@' in url else 0`. -/
def has_at_symbol (url : String) : Nat :=
  if url.data.contains '@' then 1 else 0

/-- Source function `get_url_length` from `app.py`: `1 if len(url) < 54 else 0`. -/
def get_url_length (url : String) : Nat :=
  if url.length < 54 then 1 else 0

/-- Python `str.count(ch)` for a single character. -/
def countChar (ch : Char) (s : String) : Nat :=
  s.data.countP (fun c => c == ch)

/-- Source function `get_url_depth` from `app.py`: `urlparse(url).path`, `0` when the path
is exactly `/`, otherwise `path.count('/')`. -/
def get_url_depth (url : String) : Except PyErr Nat := do
  let pr ← urlparseE url
  pure (if pr.path = "/" then 0 else countChar '/' pr.path)

/-- Source function `has_redirection` from `app.py`: `1 if '//' in urlparse(url).path`. -/
def has_redirection (url : String) : Except PyErr Nat := do
  let pr ← urlparseE url
  pure (if containsSub "//".data pr.path.data then 1 else 0)

/-- Source function `has_https_in_domain` from `app.py`: `1 if 'https' in
urlparse(url).netloc`. -/
def has_https_in_domain (url : String) : Except PyErr Nat := do
  let pr ← urlparseE url
  pure (if containsSub "https".data pr.netloc.data then 1 else 0)

/-- The shortener denylist `tiny_domain` from `app.py`. -/
def tiny_domain : List String :=
  ["bit.ly", "goog.gl", "tinyurl.com", "ow.ly", "t.co"]

/-- Source function `is_tiny_url` from `app.py`: `1 if urlparse(url).netloc in tiny_domain`. -/
def is_tiny_url (url : String) : Except PyErr Nat := do
  let pr ← urlparseE url
  pure (if tiny_domain.contains pr.netloc then 1 else 0)

/-- Source function `has_prefix_suffix` from `app.py`: `1 if '-' in urlparse(url).netloc`. -/
def has_prefix_suffix (url : String) : Except PyErr Nat := do
  let pr ← urlparseE url
  pure (if pr.netloc.data.contains '-' then 1 else 0)

/-- Outcome of the one call `socket.gethostbyname(domain)` inside
`check_dns_record`.  CPython's `gethostbyname` either returns an address
(`resolved`), raises a `socket.error` -- in Python 3 an alias of `OSError`,
covering `gaierror` and `timeout` (`socketError`) -- or raises an exception
that is not an `OSError` at all: encoding the host name with the `idna`
codec raises `UnicodeError` when a label is empty or longer than 63
characters (`otherError`). -/
inductive DnsOutcome where
  | resolved
  | socketError
  | otherError
deriving DecidableEq

/-- Source function `check_dns_record` from `app.py`: `socket.gethostbyname(domain)` inside
`try: ... except socket.error: return 0`.  Only `socket.error` is caught,
so the `otherError` outcome propagates.  The `lru_cache` decorator memoises
the function per domain and does not change any returned value, so it is
not modelled. -/
def check_dns_record : DnsOutcome → Except PyErr Nat
  | .resolved => .ok 1
  | .socketError => .ok 0
  | .otherError => .error .unicodeError

/-- Source function `get_web_traffic` from `app.py`: membership of the domain in the loaded
ranking table (`1 if domain in ranked_domains.values else 0`).  The table,
loaded at startup (empty when the CSV is missing), is passed explicitly. -/
def get_web_traffic (ranked_domains : List String) (domain : String) : Nat :=
  if ranked_domains.contains domain then 1 else 0

/-- Source function `get_domain_age` from `app.py`.  The whole body runs under
`try: ... except Exception: return 0`; the only value observable from the
outside is the computed `age_in_days` when `whois.whois` succeeds and the
subtraction from `datetime.now()` goes through, so the probe outcome is
modelled as `some age_in_days` (any whois failure, missing or ill-typed
creation date collapses to `none`). -/
def get_domain_age : Option Int → Nat
  | some age => if 365 ≤ age then 1 else 0
  | none => 0

/-- Source function `get_domain_end_period` from `app.py`: like `get_domain_age` with the
expiration date; `some days_to_expire` when the lookup succeeds. -/
def get_domain_end_period : Option Int → Nat
  | some d => if 180 ≤ d then 1 else 0
  | none => 0

/-- Source function `has_mouse_over_effect` from `app.py`: fetch the page with a 5 s
timeout under `try: ... except Exception: return 0`; on success the
observable datum is whether the body contains `onmouseover`, so the
outcome is `some contains` and any fetch error is `none`. -/
def has_mouse_over_effect : Option Bool → Nat
  | some contains => if contains then 1 else 0
  | none => 0

/-- Source function `allows_right_click` from `app.py`: the constant `1` placeholder. -/
def allows_right_click (_url : String) : Nat := 1

/-- Source function `has_web_forwards` from `app.py`: fetch following redirects with a 3 s
timeout under `try: ... except Exception: return 0`; on success the
observable datum is `len(response.history)`, modelled as `some count`. -/
def has_web_forwards : Option Nat → Nat
  | some count => if 3 ≤ count then 1 else 0
  | none => 0

/-- Environment record of one `extract_features` call: the outcome every
network-dependent probe observes for the URL's domain during that call. -/
structure NetEnv where
  dns : DnsOutcome
  ranked_domains : List String
  whois_creation : Option Int
  whois_expiration : Option Int
  mouse_over : Option Bool
  redirect_count : Option Nat
deriving DecidableEq

/-- Python `url.rstrip('/')`: remove every trailing `/`. -/
def rstripSlash (s : String) : String :=
  ⟨(s.data.reverse.dropWhile (fun c => c == '/')).reverse⟩

/-- Source function `extract_features` from `app.py`: strip trailing slashes, derive the
domain via `urlparse(url).netloc` (which can raise `ValueError`), then
build the 16-slot list in source order.  The probe slots take their values
from the `NetEnv`; slot 12 (iframe) is the constant 0 of the source. -/
def extract_features (env : NetEnv) (url : String) : Except PyErr (List Nat) :=
  let url := rstripSlash url
  do
  let pr ← urlparseE url
  let domain := pr.netloc
  let depth ← get_url_depth url
  let redir ← has_redirection url
  let httpsd ← has_https_in_domain url
  let tiny ← is_tiny_url url
  let dash ← has_prefix_suffix url
  let dns ← check_dns_record env.dns
  .ok [has_ip_address url, has_at_symbol url, get_url_length url, depth, redir,
       httpsd, tiny, dash, dns,
       get_web_traffic env.ranked_domains domain,
       get_domain_age env.whois_creation,
       get_domain_end_period env.whois_expiration, 0,
       has_mouse_over_effect env.mouse_over,
       allows_right_click url,
       has_web_forwards env.redirect_count]

/-- Body of the `try` block of `make_prediction_and_explain` from
`app.py`: extract features, scale them (`scaler.transform`), run the model
(`model.predict`) and the explainer (`explainer.shap_values`), and return
`(prediction[0][0], features, shap_values, features_scaled)`.  The three
artifact calls are opaque library invocations and are passed as fallible
oracles; the pure reshaping of the opaque shap array (list indexing /
`np.squeeze`, lines 169-172) is folded into the `shap_values` oracle's
returned value. -/
def scorePipeline {S P W : Type} (env : NetEnv)
    (transform : List Nat → Except PyErr S)
    (predict : S → Except PyErr P)
    (shap_values : S → Except PyErr W)
    (url : String) : Except PyErr (P × List Nat × W × S) := do
  let features ← extract_features env url
  let features_scaled ← transform features
  let prediction ← predict features_scaled
  let sv ← shap_values features_scaled
  .ok (prediction, features, sv, features_scaled)

/-- Source function `make_prediction_and_explain` from `app.py`: the pipeline above inside
`try: ... except Exception: return None, None, None, None` -- every
exception of the body is caught and mapped to `none`. -/
def make_prediction_and_explain {S P W : Type} (env : NetEnv)
    (transform : List Nat → Except PyErr S)
    (predict : S → Except PyErr P)
    (shap_values : S → Except PyErr W)
    (url : String) : Option (P × List Nat × W × S) :=
  match scorePipeline env transform predict shap_values url with
  | .ok r => some r
  | .error _ => none

/-- A concrete benign probe environment: DNS resolves, the ranking table is
empty, both whois lookups fail, both live fetches fail. -/
def benignEnv : NetEnv :=
  { dns := .resolved, ranked_domains := [], whois_creation := none,
    whois_expiration := none, mouse_over := none, redirect_count := none }
-- helper lemmas

/-- Reduction of `get_url_depth` under a successful parse. -/
theorem get_url_depth_ok {url : String} {r : ParseResult} (h : urlparseE url = .ok r) :
    get_url_depth url = .ok (if r.path = "/" then 0 else countChar '/' r.path) := by
  unfold get_url_depth
  rw [h]
  rfl

/-- Reduction of `has_redirection` under a successful parse. -/
theorem has_redirection_ok {url : String} {r : ParseResult} (h : urlparseE url = .ok r) :
    has_redirection url = .ok (if containsSub "//".data r.path.data then 1 else 0) := by
  unfold has_redirection
  rw [h]
  rfl

/-- Reduction of `has_https_in_domain` under a successful parse. -/
theorem has_https_in_domain_ok {url : String} {r : ParseResult} (h : urlparseE url = .ok r) :
    has_https_in_domain url = .ok (if containsSub "https".data r.netloc.data then 1 else 0) := by
  unfold has_https_in_domain
  rw [h]
  rfl

/-- Reduction of `is_tiny_url` under a successful parse. -/
theorem is_tiny_url_ok {url : String} {r : ParseResult} (h : urlparseE url = .ok r) :
    is_tiny_url url = .ok (if tiny_domain.contains r.netloc then 1 else 0) := by
  unfold is_tiny_url
  rw [h]
  rfl

/-- Reduction of `has_prefix_suffix` under a successful parse. -/
theorem has_prefix_suffix_ok {url : String} {r : ParseResult} (h : urlparseE url = .ok r) :
    has_prefix_suffix url = .ok (if r.netloc.data.contains '-' then 1 else 0) := by
  unfold has_prefix_suffix
  rw [h]
  rfl

/-- An indicator value is 0 or 1. -/
theorem ite_01 {c : Prop} [Decidable c] :
    (if c then (1 : Nat) else 0) = 0 ∨ (if c then (1 : Nat) else 0) = 1 := by
  by_cases h : c <;> simp [h]

/-- Explicit value of `extract_features` when the parse of the stripped URL
succeeds and the DNS probe returns a value. -/
theorem extract_features_eq {env : NetEnv} {url : String} {r : ParseResult} {dv : Nat}
    (hp : urlparseE (rstripSlash url) = .ok r)
    (hd : check_dns_record env.dns = .ok dv) :
    extract_features env url = .ok
      [has_ip_address (rstripSlash url), has_at_symbol (rstripSlash url),
       get_url_length (rstripSlash url),
       (if r.path = "/" then 0 else countChar '/' r.path),
       (if containsSub "//".data r.path.data then 1 else 0),
       (if containsSub "https".data r.netloc.data then 1 else 0),
       (if tiny_domain.contains r.netloc then 1 else 0),
       (if r.netloc.data.contains '-' then 1 else 0),
       dv,
       get_web_traffic env.ranked_domains r.netloc,
       get_domain_age env.whois_creation,
       get_domain_end_period env.whois_expiration, 0,
       has_mouse_over_effect env.mouse_over, 1,
       has_web_forwards env.redirect_count] := by
  simp only [extract_features]
  rw [get_url_depth_ok hp, has_redirection_ok hp, has_https_in_domain_ok hp,
    is_tiny_url_ok hp, has_prefix_suffix_ok hp, hp, hd]
  rfl

/-- A failed parse of the stripped URL propagates out of
`extract_features`. -/
theorem extract_features_parse_error {env : NetEnv} {url : String} {e : PyErr}
    (hp : urlparseE (rstripSlash url) = .error e) :
    extract_features env url = .error e := by
  simp only [extract_features]
  rw [hp]
  rfl

-- C8 refinement definition and theorem

/-- Path depth as the spec words it: the count of `/` separators in the
path component, and 0 for an empty or root path. -/
def path_depth_spec (p : String) : Nat :=
  if p = "" ∨ p = "/" then 0 else countChar '/' p

/-- C8: for every URL whose parse succeeds, `get_url_depth` returns exactly
the spec's path depth: the count of `/` separators in the path component,
and 0 when the path is empty or the root path `/`. -/
theorem get_url_depth_matches_spec (url : String) (r : ParseResult)
    (hp : urlparseE url = .ok r) :
    get_url_depth url = .ok (path_depth_spec r.path) := by
  rw [get_url_depth_ok hp]
  unfold path_depth_spec
  by_cases h1 : r.path = "/"
  · simp [h1]
  · by_cases h0 : r.path = ""
    · simp [h0, h1, countChar]
    · simp [h0, h1]

/-- Witness for `get_url_depth_matches_spec` at `"http://a.com/x/y"`. -/
theorem get_url_depth_matches_spec_witness :
    urlparseE "http://a.com/x/y" = .ok ⟨"http", "a.com", "/x/y", "", "", ""⟩ ∧
    get_url_depth "http://a.com/x/y" = .ok (path_depth_spec "/x/y") :=
  ⟨by decide, get_url_depth_matches_spec "http://a.com/x/y" ⟨"http", "a.com", "/x/y", "", "", ""⟩ (by decide)⟩

-- C2

/-- C2 (code bug): the pattern of `has_ip_address` contains the quantifier
typo `[0-9]\x7b1-3\x7d`, which Python's `re` treats as literal text, so the
function returns 0 on the spec's own example URL with a dotted-quad IPv4
host, and on dotted-quad hosts generally. -/
theorem has_ip_address_misses_dotted_quad :
    has_ip_address "http://192.168.1.1/@login" = 0 ∧
    has_ip_address "http://10.0.0.7/login" = 0 := by decide

-- C4

/-- C4 counterexample: a non-socket exception during DNS resolution (the
`UnicodeError` CPython raises for a host label longer than 63 characters,
e.g. for `http://aaaa...a.com/` with 64 `a`s) is not caught by
`except socket.error` and propagates out of `check_dns_record` instead of
yielding the default 0. -/
theorem check_dns_record_propagates_unicode_error :
    check_dns_record DnsOutcome.otherError = .error PyErr.unicodeError ∧
    check_dns_record DnsOutcome.otherError ≠ .ok 0 := by decide

/-- C4 amended: the WHOIS, popularity, mouse-over and redirect probes map
every failure to the default 0, and the DNS probe maps every socket error
(timeouts, resolution failures) to 0; only a non-socket exception from the
DNS probe escapes the probe layer. -/
theorem probe_failures_default_zero :
    check_dns_record DnsOutcome.socketError = .ok 0 ∧
    get_domain_age none = 0 ∧
    get_domain_end_period none = 0 ∧
    has_mouse_over_effect none = 0 ∧
    has_web_forwards none = 0 ∧
    get_web_traffic [] "example.com" = 0 ∧
    get_web_traffic ["tranco.example"] "other.example" = 0 ∧
    check_dns_record DnsOutcome.otherError = .error PyErr.unicodeError := by
  decide

-- C6

/-- C6: the eight lexical feature functions are pure Lean functions of the
URL string (they perform no I/O in this embedding), so two calls on equal
URL strings return equal values. -/
theorem lexical_features_deterministic (u₁ u₂ : String) (h : u₁ = u₂) :
    has_ip_address u₁ = has_ip_address u₂ ∧
    has_at_symbol u₁ = has_at_symbol u₂ ∧
    get_url_length u₁ = get_url_length u₂ ∧
    get_url_depth u₁ = get_url_depth u₂ ∧
    has_redirection u₁ = has_redirection u₂ ∧
    has_https_in_domain u₁ = has_https_in_domain u₂ ∧
    is_tiny_url u₁ = is_tiny_url u₂ ∧
    has_prefix_suffix u₁ = has_prefix_suffix u₂ := by
  subst h
  exact ⟨rfl, rfl, rfl, rfl, rfl, rfl, rfl, rfl⟩

/-- Witness for `lexical_features_deterministic` at `"http://a-b.com/x"`. -/
theorem lexical_features_deterministic_witness :
    "http://a-b.com/x" = "http://a-b.com/x" ∧
    (has_ip_address "http://a-b.com/x" = has_ip_address "http://a-b.com/x" ∧
     has_at_symbol "http://a-b.com/x" = has_at_symbol "http://a-b.com/x" ∧
     get_url_length "http://a-b.com/x" = get_url_length "http://a-b.com/x" ∧
     get_url_depth "http://a-b.com/x" = get_url_depth "http://a-b.com/x" ∧
     has_redirection "http://a-b.com/x" = has_redirection "http://a-b.com/x" ∧
     has_https_in_domain "http://a-b.com/x" = has_https_in_domain "http://a-b.com/x" ∧
     is_tiny_url "http://a-b.com/x" = is_tiny_url "http://a-b.com/x" ∧
     has_prefix_suffix "http://a-b.com/x" = has_prefix_suffix "http://a-b.com/x") :=
  ⟨rfl, lexical_features_deterministic _ _ rfl⟩

-- C10

/-- C10: whenever `urlparse` finds no network location (empty netloc), the
three host-based lexical features return 0 without raising. -/
theorem host_features_zero_without_netloc (url : String) (r : ParseResult)
    (hp : urlparseE url = .ok r) (hn : r.netloc = "") :
    has_https_in_domain url = .ok 0 ∧
    is_tiny_url url = .ok 0 ∧
    has_prefix_suffix url = .ok 0 := by
  refine ⟨?_, ?_, ?_⟩
  · rw [has_https_in_domain_ok hp, hn]
    decide
  · rw [is_tiny_url_ok hp, hn]
    decide
  · rw [has_prefix_suffix_ok hp, hn]
    decide

/-- Witness for `host_features_zero_without_netloc` at `"mailto:someone"`,
a URL with a scheme but no `//`, hence an empty netloc. -/
theorem host_features_zero_without_netloc_witness :
    urlparseE "mailto:someone" = .ok ⟨"mailto", "", "someone", "", "", ""⟩ ∧
    ("" : String) = "" ∧
    (has_https_in_domain "mailto:someone" = .ok 0 ∧
     is_tiny_url "mailto:someone" = .ok 0 ∧
     has_prefix_suffix "mailto:someone" = .ok 0) :=
  ⟨by decide, rfl, host_features_zero_without_netloc "mailto:someone" ⟨"mailto", "", "someone", "", "", ""⟩ (by decide) rfl⟩

-- C9

/-- Bind-reduction for `Except` used to evaluate the score pipeline. -/
theorem except_bind_ok {ε α β : Type} (a : α) (f : α → Except ε β) :
    (Except.ok a >>= f) = f a := rfl

/-- Dropping a leading block of repeated characters that the predicate
accepts reduces to dropping from the tail. -/
theorem dropWhile_replicate_append (c : Char) (k : Nat) (t : List Char) :
    (List.replicate k c ++ t).dropWhile (fun d => d == c) = t.dropWhile (fun d => d == c) := by
  induction k with
  | zero => rfl
  | succ n ih => simp [List.replicate_succ, List.dropWhile_cons, ih]

/-- Stripping trailing slashes with `rstrip('/')` ignores any block of appended trailing slashes. -/
theorem rstripSlash_append_slashes (s : String) (k : Nat) :
    rstripSlash ⟨s.data ++ List.replicate k '/'⟩ = rstripSlash s := by
  unfold rstripSlash
  congr 1
  rw [List.reverse_append, List.reverse_replicate]
  exact congrArg List.reverse (dropWhile_replicate_append '/' k s.data.reverse)

/-- C9: `extract_features` strips all trailing slashes before computing any
feature, so two URL strings that differ only in their number of trailing
slashes extract identical feature vectors. -/
theorem extract_features_trailing_slash_invariant (env : NetEnv) (u : String) (k₁ k₂ : Nat) :
    extract_features env ⟨u.data ++ List.replicate k₁ '/'⟩ =
    extract_features env ⟨u.data ++ List.replicate k₂ '/'⟩ := by
  simp only [extract_features]
  rw [rstripSlash_append_slashes, rstripSlash_append_slashes]

-- C1

/-- C1 counterexample: on `http://a.com/x/y` the path-depth slot of the
extracted vector is 2, which is neither 0 nor 1; moreover
`extract_features` does not even return a vector for every URL string: an
unbalanced bracket in the netloc raises `ValueError`, and a DNS probe
hitting a non-socket `UnicodeError` propagates it. -/
theorem extract_features_not_all_binary :
    extract_features benignEnv "http://a.com/x/y" =
      .ok [0, 0, 1, 2, 0, 0, 0, 0, 1, 0, 0, 0, 0, 0, 1, 0] ∧
    ¬ ((2 : Nat) = 0 ∨ (2 : Nat) = 1) ∧
    extract_features benignEnv "http://[a" = .error PyErr.valueError ∧
    extract_features { benignEnv with dns := DnsOutcome.otherError } "http://a.com" =
      .error PyErr.unicodeError := by
  decide

/-- Indicator form of `get_domain_age`. -/
theorem get_domain_age_01 (o : Option Int) : get_domain_age o = 0 ∨ get_domain_age o = 1 := by
  cases o with
  | none => exact Or.inl rfl
  | some a => simp only [get_domain_age]; exact ite_01

/-- Indicator form of `get_domain_end_period`. -/
theorem get_domain_end_period_01 (o : Option Int) :
    get_domain_end_period o = 0 ∨ get_domain_end_period o = 1 := by
  cases o with
  | none => exact Or.inl rfl
  | some a => simp only [get_domain_end_period]; exact ite_01

/-- Indicator form of `has_mouse_over_effect`. -/
theorem has_mouse_over_effect_01 (o : Option Bool) :
    has_mouse_over_effect o = 0 ∨ has_mouse_over_effect o = 1 := by
  cases o with
  | none => exact Or.inl rfl
  | some b => simp only [has_mouse_over_effect]; exact ite_01

/-- Indicator form of `has_web_forwards`. -/
theorem has_web_forwards_01 (o : Option Nat) :
    has_web_forwards o = 0 ∨ has_web_forwards o = 1 := by
  cases o with
  | none => exact Or.inl rfl
  | some n => simp only [has_web_forwards]; exact ite_01

/-- C1 amended: whenever the stripped URL parses successfully and the DNS
lookup raises no uncaught exception, `extract_features` returns exactly 16
values; every slot other than slot 3 is 0 or 1, and slot 3 holds the
path-depth count, which may exceed 1. -/
theorem extract_features_shape (env : NetEnv) (url : String) (r : ParseResult)
    (hp : urlparseE (rstripSlash url) = .ok r) (hd : env.dns ≠ DnsOutcome.otherError) :
    ∃ l, extract_features env url = .ok l ∧ l.length = 16 ∧
      l[3]? = some (if r.path = "/" then 0 else countChar '/' r.path) ∧
      ∀ i v, i ≠ 3 → l[i]? = some v → v = 0 ∨ v = 1 := by
  obtain ⟨dv, hdv, hdv01⟩ : ∃ dv, check_dns_record env.dns = .ok dv ∧ (dv = 0 ∨ dv = 1) := by
    cases h : env.dns with
    | resolved => exact ⟨1, rfl, Or.inr rfl⟩
    | socketError => exact ⟨0, rfl, Or.inl rfl⟩
    | otherError => exact absurd h hd
  refine ⟨_, extract_features_eq hp hdv, rfl, rfl, ?_⟩
  intro i v hi hv
  match i with
  | 0 =>
    simp only [List.getElem?_cons_zero, Option.some.injEq] at hv
    subst hv
    simp only [has_ip_address]
    exact ite_01
  | 1 =>
    simp only [List.getElem?_cons_succ, List.getElem?_cons_zero, Option.some.injEq] at hv
    subst hv
    simp only [has_at_symbol]
    exact ite_01
  | 2 =>
    simp only [List.getElem?_cons_succ, List.getElem?_cons_zero, Option.some.injEq] at hv
    subst hv
    simp only [get_url_length]
    exact ite_01
  | 3 => exact absurd rfl hi
  | 4 =>
    simp only [List.getElem?_cons_succ, List.getElem?_cons_zero, Option.some.injEq] at hv
    subst hv
    exact ite_01
  | 5 =>
    simp only [List.getElem?_cons_succ, List.getElem?_cons_zero, Option.some.injEq] at hv
    subst hv
    exact ite_01
  | 6 =>
    simp only [List.getElem?_cons_succ, List.getElem?_cons_zero, Option.some.injEq] at hv
    subst hv
    exact ite_01
  | 7 =>
    simp only [List.getElem?_cons_succ, List.getElem?_cons_zero, Option.some.injEq] at hv
    subst hv
    exact ite_01
  | 8 =>
    simp only [List.getElem?_cons_succ, List.getElem?_cons_zero, Option.some.injEq] at hv
    subst hv
    exact hdv01
  | 9 =>
    simp only [List.getElem?_cons_succ, List.getElem?_cons_zero, Option.some.injEq] at hv
    subst hv
    simp only [get_web_traffic]
    exact ite_01
  | 10 =>
    simp only [List.getElem?_cons_succ, List.getElem?_cons_zero, Option.some.injEq] at hv
    subst hv
    exact get_domain_age_01 _
  | 11 =>
    simp only [List.getElem?_cons_succ, List.getElem?_cons_zero, Option.some.injEq] at hv
    subst hv
    exact get_domain_end_period_01 _
  | 12 =>
    simp only [List.getElem?_cons_succ, List.getElem?_cons_zero, Option.some.injEq] at hv
    subst hv
    exact Or.inl rfl
  | 13 =>
    simp only [List.getElem?_cons_succ, List.getElem?_cons_zero, Option.some.injEq] at hv
    subst hv
    exact has_mouse_over_effect_01 _
  | 14 =>
    simp only [List.getElem?_cons_succ, List.getElem?_cons_zero, Option.some.injEq] at hv
    subst hv
    exact Or.inr rfl
  | 15 =>
    simp only [List.getElem?_cons_succ, List.getElem?_cons_zero, Option.some.injEq] at hv
    subst hv
    exact has_web_forwards_01 _
  | n + 16 =>
    simp only [List.getElem?_cons_succ, List.getElem?_nil] at hv
    exact Option.noConfusion hv

/-- Witness for `extract_features_shape` at `benignEnv` and
`"http://a.com/x/y"`. -/
theorem extract_features_shape_witness :
    urlparseE (rstripSlash "http://a.com/x/y") = .ok ⟨"http", "a.com", "/x/y", "", "", ""⟩ ∧
    benignEnv.dns ≠ DnsOutcome.otherError ∧
    (∃ l, extract_features benignEnv "http://a.com/x/y" = .ok l ∧ l.length = 16 ∧
      l[3]? = some (if ("/x/y" : String) = "/" then 0 else countChar '/' "/x/y") ∧
      ∀ i v, i ≠ 3 → l[i]? = some v → v = 0 ∨ v = 1) :=
  ⟨by decide, by decide,
    extract_features_shape benignEnv "http://a.com/x/y" ⟨"http", "a.com", "/x/y", "", "", ""⟩
      (by decide) (by decide)⟩

-- C7

/-- C7: relative to a run in which DNS resolution succeeds, a DNS
resolution failure (a socket error such as a timeout) sets feature slot 8
to 0, leaves every other of the 15 slots at the value it has under
successful resolution, and raises no exception. -/
theorem dns_failure_isolates_slot8 (env : NetEnv) (url : String) (l : List Nat)
    (hres : env.dns = DnsOutcome.resolved)
    (hok : extract_features env url = .ok l) :
    ∃ l', extract_features { env with dns := DnsOutcome.socketError } url = .ok l' ∧
      l'[8]? = some 0 ∧ l[8]? = some 1 ∧ ∀ i, i ≠ 8 → l'[i]? = l[i]? := by
  cases hp : urlparseE (rstripSlash url) with
  | error e =>
    rw [extract_features_parse_error hp] at hok
    exact absurd hok (by simp)
  | ok r =>
    have h1 : check_dns_record env.dns = .ok 1 := by rw [hres]; rfl
    have h0 : check_dns_record ({ env with dns := DnsOutcome.socketError }).dns = .ok 0 := rfl
    have he := extract_features_eq hp h1
    have he' := extract_features_eq hp h0
    rw [hok] at he
    injection he with hl
    subst hl
    refine ⟨_, he', rfl, rfl, ?_⟩
    intro i hi
    match i with
    | 0 => rfl
    | 1 => rfl
    | 2 => rfl
    | 3 => rfl
    | 4 => rfl
    | 5 => rfl
    | 6 => rfl
    | 7 => rfl
    | 8 => exact absurd rfl hi
    | 9 => rfl
    | 10 => rfl
    | 11 => rfl
    | 12 => rfl
    | 13 => rfl
    | 14 => rfl
    | 15 => rfl
    | n + 16 => rfl

/-- Witness for `dns_failure_isolates_slot8` at `benignEnv` and
`"http://a.com"`. -/
theorem dns_failure_isolates_slot8_witness :
    benignEnv.dns = DnsOutcome.resolved ∧
    extract_features benignEnv "http://a.com" =
      .ok [0, 0, 1, 0, 0, 0, 0, 0, 1, 0, 0, 0, 0, 0, 1, 0] ∧
    (∃ l', extract_features { benignEnv with dns := DnsOutcome.socketError } "http://a.com" =
        .ok l' ∧
      l'[8]? = some 0 ∧
      ([0, 0, 1, 0, 0, 0, 0, 0, 1, 0, 0, 0, 0, 0, 1, 0] : List Nat)[8]? = some 1 ∧
      ∀ i, i ≠ 8 →
        l'[i]? = ([0, 0, 1, 0, 0, 0, 0, 0, 1, 0, 0, 0, 0, 0, 1, 0] : List Nat)[i]?) :=
  ⟨rfl, by decide,
    dns_failure_isolates_slot8 benignEnv "http://a.com"
      [0, 0, 1, 0, 0, 0, 0, 0, 1, 0, 0, 0, 0, 0, 1, 0] rfl (by decide)⟩

-- C3

/-- C3: `make_prediction_and_explain` never propagates an exception -- a
failing body yields `none`, a successful body yields its result -- and,
whenever the URL parses, the DNS lookup raises no uncaught exception and
the scaler, model and explainer artifact calls succeed, it produces a
prediction together with the full 16-slot feature vector, the shap values
and the scaled features. -/
theorem make_prediction_total_and_scores {S P W : Type} (env : NetEnv)
    (transform : List Nat → Except PyErr S)
    (predict : S → Except PyErr P)
    (shap_values : S → Except PyErr W)
    (url : String) :
    (∀ e, scorePipeline env transform predict shap_values url = .error e →
        make_prediction_and_explain env transform predict shap_values url = none) ∧
    (∀ res, scorePipeline env transform predict shap_values url = .ok res →
        make_prediction_and_explain env transform predict shap_values url = some res) ∧
    ((∃ r, urlparseE (rstripSlash url) = .ok r) → env.dns ≠ DnsOutcome.otherError →
      (∀ v, ∃ s, transform v = .ok s) → (∀ s, ∃ p, predict s = .ok p) →
      (∀ s, ∃ w, shap_values s = .ok w) →
      ∃ p l w s, make_prediction_and_explain env transform predict shap_values url =
          some (p, l, w, s) ∧ l.length = 16) := by
  refine ⟨?_, ?_, ?_⟩
  · intro e he
    unfold make_prediction_and_explain
    rw [he]
  · intro res hres
    unfold make_prediction_and_explain
    rw [hres]
  · rintro ⟨r, hp⟩ hd ht hpr hsh
    obtain ⟨dv, hdv⟩ : ∃ dv, check_dns_record env.dns = .ok dv := by
      cases h : env.dns with
      | resolved => exact ⟨1, rfl⟩
      | socketError => exact ⟨0, rfl⟩
      | otherError => exact absurd h hd
    obtain ⟨L, hfeL, hlen⟩ : ∃ L, extract_features env url = .ok L ∧ L.length = 16 :=
      ⟨_, extract_features_eq hp hdv, rfl⟩
    obtain ⟨s, hs⟩ := ht L
    obtain ⟨p, hpred⟩ := hpr s
    obtain ⟨w, hw⟩ := hsh s
    refine ⟨p, L, w, s, ?_, hlen⟩
    unfold make_prediction_and_explain scorePipeline
    simp only [hfeL, hs, hpred, hw, except_bind_ok]

/-- Witness for `make_prediction_total_and_scores` with identity scaler and
constant model/explainer oracles at `"http://a.com"`. -/
theorem make_prediction_total_and_scores_witness :
    (∃ r, urlparseE (rstripSlash "http://a.com") = .ok r) ∧
    benignEnv.dns ≠ DnsOutcome.otherError ∧
    (∃ p l w s, make_prediction_and_explain benignEnv
        (fun v => (.ok v : Except PyErr (List Nat)))
        (fun _ => (.ok 0 : Except PyErr Nat))
        (fun _ => (.ok 0 : Except PyErr Nat)) "http://a.com" =
        some (p, l, w, s) ∧ l.length = 16) :=
  ⟨⟨⟨"http", "a.com", "", "", "", ""⟩, by decide⟩, by decide,
    (make_prediction_total_and_scores benignEnv
        (fun v => (.ok v : Except PyErr (List Nat)))
        (fun _ => (.ok 0 : Except PyErr Nat))
        (fun _ => (.ok 0 : Except PyErr Nat)) "http://a.com").2.2
      ⟨⟨"http", "a.com", "", "", "", ""⟩, by decide⟩ (by decide)
      (fun v => ⟨v, rfl⟩) (fun _ => ⟨0, rfl⟩) (fun _ => ⟨0, rfl⟩)⟩

/-- C3 counterexample: the URL below parses -- its host is a single
64-character label, so the string is syntactically acceptable -- yet the
caller gets no probability, feature vector or explanation for it: encoding
that label makes `socket.gethostbyname` raise `UnicodeError`, which
`check_dns_record` does not catch, so the body of
`make_prediction_and_explain` fails and the catch-all returns the `None`
sentinel (here with an identity scaler and always-succeeding model and
explainer oracles, so the miss is due to the URL alone). -/
theorem make_prediction_none_for_overlong_label :
    urlparseE (rstripSlash "http://aaaaaaaaaaaaaaaaaaaaaaaaaaaaaaaaaaaaaaaaaaaaaaaaaaaaaaaaaaaaaaaa.com") =
      .ok ⟨"http", "aaaaaaaaaaaaaaaaaaaaaaaaaaaaaaaaaaaaaaaaaaaaaaaaaaaaaaaaaaaaaaaa.com", "", "", "", ""⟩ ∧
    scorePipeline { benignEnv with dns := DnsOutcome.otherError }
      (fun v => (.ok v : Except PyErr (List Nat)))
      (fun _ => (.ok 0 : Except PyErr Nat))
      (fun _ => (.ok 0 : Except PyErr Nat)) "http://aaaaaaaaaaaaaaaaaaaaaaaaaaaaaaaaaaaaaaaaaaaaaaaaaaaaaaaaaaaaaaaa.com" =
      .error PyErr.unicodeError ∧
    make_prediction_and_explain { benignEnv with dns := DnsOutcome.otherError }
      (fun v => (.ok v : Except PyErr (List Nat)))
      (fun _ => (.ok 0 : Except PyErr Nat))
      (fun _ => (.ok 0 : Except PyErr Nat)) "http://aaaaaaaaaaaaaaaaaaaaaaaaaaaaaaaaaaaaaaaaaaaaaaaaaaaaaaaaaaaaaaaa.com" = none := by
  decide
